import Mathlib

/-!
# Verification of the billing-period boundary calculator and aggregation engine

Shallow embedding of `claude_monitor.core.billing_periods` and the parts of
`claude_monitor.core.models` they use.

Modelling conventions:

* A timezone-aware `datetime` is represented by the integer number of
  microseconds since 0001-01-01T00:00:00 of the proleptic Gregorian calendar,
  read in the calculator's configured (fixed-offset) timezone.  For aware
  datetimes sharing one fixed-offset timezone, Python's comparison operators,
  `timedelta` arithmetic and field accessors (`year`, `month`, `day`, `hour`,
  `weekday()`, `replace(...)`) agree with plain integer arithmetic on this
  representation, which is what the definitions below use.  Timezone
  normalization (`_ensure_timezone`) is the identity on this representation,
  so it is not modelled separately.
* Python `float` cost values are modelled by exact rationals (`ℚ`); the one
  float division in the source (`_calculate_custom_boundaries`) is modelled
  by exact integer arithmetic with the same rounding direction
  (`int(...)` truncates toward zero, i.e. `Int.div`).
* A code path that raises `ValueError` in Python (out-of-range field passed
  to `datetime.replace`) is modelled by returning `none`.
* Python `int` is modelled by `Int`, Python lists by `List`, and `dict`
  (which preserves insertion order and updates keys in place) by an
  insertion-ordered association list.
-/

/-! ## Calendar arithmetic (model of the `datetime` / `calendar` stdlib) -/

/-- `calendar.isleap`: Gregorian leap-year test. -/
def isLeapYear (y : Int) : Bool :=
  y.emod 4 == 0 && (y.emod 100 != 0 || y.emod 400 == 0)

/-- Length of month `m` (1..12) in a year with leap flag `leap`;
out-of-range months never arise on the verified paths (junk value 31). -/
def daysInMonthTable (leap : Bool) (m : Int) : Int :=
  if m = 2 then (if leap then 29 else 28)
  else if m = 4 ∨ m = 6 ∨ m = 9 ∨ m = 11 then 30
  else 31

/-- `calendar.monthrange(y, m)[1]`: number of days in month `m` of year `y`. -/
def daysInMonth (y m : Int) : Int :=
  daysInMonthTable (isLeapYear y) m

/-- Days in months strictly before month `m` (1..12) of a non-leap year. -/
def daysBeforeMonthTable (m : Int) : Int :=
  if m = 1 then 0 else if m = 2 then 31 else if m = 3 then 59
  else if m = 4 then 90 else if m = 5 then 120 else if m = 6 then 151
  else if m = 7 then 181 else if m = 8 then 212 else if m = 9 then 243
  else if m = 10 then 273 else if m = 11 then 304 else 334

/-- Days in year `y` strictly before month `m`. -/
def daysBeforeMonth (y m : Int) : Int :=
  daysBeforeMonthTable m + (if 2 < m ∧ isLeapYear y then 1 else 0)

/-- Days strictly before January 1 of year `y` counted from 0001-01-01
(CPython's `_days_before_year`; Python `//` is floor division = `Int.fdiv`). -/
def daysBeforeYear (y : Int) : Int :=
  365 * (y - 1) + (y - 1).fdiv 4 - (y - 1).fdiv 100 + (y - 1).fdiv 400

/-- Proleptic Gregorian ordinal of the date `(y, m, d)`; 0001-01-01 is day 1
(CPython's `_ymd2ord`). -/
def toOrdinal (y m d : Int) : Int :=
  daysBeforeYear y + daysBeforeMonth y m + d

/-- Number of days in year `y`. -/
def yearLen (y : Int) : Int :=
  if isLeapYear y then 366 else 365

/-- Splits a day offset `r` (days since Jan 1 of year `y`) into the year it
falls in and the remaining day-of-year.  Structural recursion on explicit
fuel so that concrete instances reduce in the kernel; fuel `400` is enough
for any offset inside one 400-year Gregorian cycle. -/
def yearSplit : Nat → Int → Int → Int × Int
  | 0, y, r => (y, r)
  | fuel + 1, y, r =>
    if r < yearLen y then (y, r) else yearSplit fuel (y + 1) (r - yearLen y)

/-- Splits a day-of-year `r` (0-based, within year `y`) into month and
0-based day-of-month, starting the scan at month `m`; fuel 12 suffices. -/
def monthSplit : Nat → Int → Int → Int → Int × Int
  | 0, _, m, r => (m, r)
  | fuel + 1, y, m, r =>
    if r < daysInMonth y m then (m, r)
    else monthSplit fuel y (m + 1) (r - daysInMonth y m)

/-- Inverse of `toOrdinal` (CPython's `_ord2ymd`): the calendar date of a
proleptic Gregorian ordinal, via reduction modulo the 146097-day cycle. -/
def civilFromDays (ord : Int) : Int × Int × Int :=
  let c := (ord - 1).fdiv 146097
  let r := (ord - 1).emod 146097
  let yd := yearSplit 400 (400 * c + 1) r
  let md := monthSplit 12 yd.1 1 yd.2
  (yd.1, md.1, md.2 + 1)

/-! ## Instants as microseconds -/

def microsPerSec : Int := 1000000

def microsPerHour : Int := 3600000000

def microsPerDay : Int := 86400000000

/-- 0-based day number of instant `t` (day 0 = 0001-01-01). -/
def dayIndex (t : Int) : Int := t.fdiv microsPerDay

/-- Proleptic Gregorian ordinal of the date of `t`. -/
def ordinalOf (t : Int) : Int := dayIndex t + 1

/-- `t.replace(hour=0, minute=0, second=0, microsecond=0)`: midnight of
`t`'s date. -/
def dayStart (t : Int) : Int := microsPerDay * dayIndex t

/-- `t.weekday()`: 0 = Monday .. 6 = Sunday (0001-01-01 was a Monday). -/
def weekdayOf (t : Int) : Int := (dayIndex t).emod 7

/-- Calendar date `(year, month, day)` of instant `t`. -/
def civilOf (t : Int) : Int × Int × Int := civilFromDays (ordinalOf t)

/-- Midnight of the date `(y, m, d)` as an instant. -/
def mkMicros (y m d : Int) : Int := (toOrdinal y m d - 1) * microsPerDay

/-- The instant at date `(y, m, d)`, time `h:mi:s`. -/
def mkMicrosT (y m d h mi s : Int) : Int :=
  mkMicros y m d + h * microsPerHour + mi * 60000000 + s * microsPerSec

/-! ## Data model (`claude_monitor.core.models`) -/

/-- `BillingPeriodType`: types of billing periods for cost tracking. -/
inductive BillingPeriodType where
  | daily
  | weekly
  | monthly
  | custom
deriving DecidableEq

/-- `UsageEntry`: individual usage record from Claude usage data. -/
structure UsageEntry where
  timestamp : Int
  input_tokens : Int
  output_tokens : Int
  cache_creation_tokens : Int := 0
  cache_read_tokens : Int := 0
  cost_usd : ℚ := 0
  model : String := ""
  message_id : String := ""
  request_id : String := ""
deriving DecidableEq

/-- `TokenCounts`: token aggregation structure. -/
structure TokenCounts where
  input_tokens : Int := 0
  output_tokens : Int := 0
  cache_creation_tokens : Int := 0
  cache_read_tokens : Int := 0
deriving DecidableEq

/-- `TokenCounts.total_tokens`: total tokens across all types. -/
def TokenCounts.total_tokens (tc : TokenCounts) : Int :=
  tc.input_tokens + tc.output_tokens + tc.cache_creation_tokens + tc.cache_read_tokens

/-- `SessionBlock`: aggregated session block representing a 5-hour period.
The display-only optional fields of the Python dataclass (`burn_rate`,
`actual_end_time`, `per_model_stats`, `models`, `sent_messages_count`,
`limit_messages`, `projection_data`, `burn_rate_snapshot`, `is_active`,
`is_gap`) are not read by any operation verified here and are omitted. -/
structure SessionBlock where
  id : String
  start_time : Int
  end_time : Int
  entries : List UsageEntry := []
  token_counts : TokenCounts := {}
  cost_usd : ℚ := 0
deriving DecidableEq

/-- `BillingPeriod`: a billing period with its boundaries and metadata. -/
structure BillingPeriod where
  period_type : BillingPeriodType
  start_time : Int
  end_time : Int
  is_current : Bool := false
  custom_label : Option String := none
deriving DecidableEq

/-- `BillingPeriod.contains_timestamp`:
`self.start_time <= timestamp < self.end_time`. -/
def BillingPeriod.contains_timestamp (p : BillingPeriod) (timestamp : Int) : Prop :=
  p.start_time ≤ timestamp ∧ timestamp < p.end_time

instance (p : BillingPeriod) (t : Int) : Decidable (p.contains_timestamp t) :=
  inferInstanceAs (Decidable (_ ∧ _))

/-- `BillingPeriodSummary`: summary of usage and costs within a billing
period.  `per_model_costs` models a Python `dict` as an insertion-ordered
association list. -/
structure BillingPeriodSummary where
  period : BillingPeriod
  total_cost : ℚ := 0
  total_tokens : Int := 0
  token_counts : TokenCounts := {}
  session_blocks : List SessionBlock := []
  entries_count : Int := 0
  models_used : List String := []
  per_model_costs : List (String × ℚ) := []
  first_usage : Option Int := none
  last_usage : Option Int := none
deriving DecidableEq

/-- `self.per_model_costs[model] += cost` with Python `dict` semantics:
update the existing key in place, else append a new key. -/
def dictAdd (d : List (String × ℚ)) (k : String) (v : ℚ) : List (String × ℚ) :=
  if d.any (fun p => p.1 == k) then
    d.map (fun p => if p.1 == k then (p.1, p.2 + v) else p)
  else d ++ [(k, v)]

/-- One step of Python's `min` over a list. -/
def minStep (acc : Option Int) (t : Int) : Option Int :=
  match acc with
  | none => some t
  | some a => some (min a t)

/-- One step of Python's `max` over a list. -/
def maxStep (acc : Option Int) (t : Int) : Option Int :=
  match acc with
  | none => some t
  | some a => some (max a t)

/-- Python `min` folded over a possibly-empty list (`none` when empty). -/
def foldMin (l : List Int) : Option Int := l.foldl minStep none

/-- Python `max` folded over a possibly-empty list (`none` when empty). -/
def foldMax (l : List Int) : Option Int := l.foldl maxStep none

/-- The `models_used` update for one entry: `if entry.model and entry.model
not in self.models_used: self.models_used.append(entry.model)`. -/
def modelsStep (acc : List String) (e : UsageEntry) : List String :=
  if e.model ≠ "" ∧ e.model ∉ acc then acc ++ [e.model] else acc

/-- The `per_model_costs` update for one entry. -/
def pmcStep (d : List (String × ℚ)) (e : UsageEntry) : List (String × ℚ) :=
  dictAdd d e.model e.cost_usd

/-- One iteration of the entry loop in `add_session_block`: accumulates
`(period_cost, period_tokens, models_used, per_model_costs)`. -/
def entryStep (acc : ℚ × TokenCounts × List String × List (String × ℚ))
    (e : UsageEntry) : ℚ × TokenCounts × List String × List (String × ℚ) :=
  (acc.1 + e.cost_usd,
   { input_tokens := acc.2.1.input_tokens + e.input_tokens,
     output_tokens := acc.2.1.output_tokens + e.output_tokens,
     cache_creation_tokens := acc.2.1.cache_creation_tokens + e.cache_creation_tokens,
     cache_read_tokens := acc.2.1.cache_read_tokens + e.cache_read_tokens },
   modelsStep acc.2.2.1 e,
   pmcStep acc.2.2.2 e)

/-- The list comprehension at the top of `add_session_block`: the entries
of the block whose timestamps the period contains. -/
def relevant_of (p : BillingPeriod) (b : SessionBlock) : List UsageEntry :=
  b.entries.filter (fun entry => decide (p.contains_timestamp entry.timestamp))

/-- `BillingPeriodSummary.add_session_block`: add a session block to this
billing period summary, restricted to the entries the period contains. -/
def BillingPeriodSummary.add_session_block (s : BillingPeriodSummary)
    (session_block : SessionBlock) : BillingPeriodSummary :=
  let relevant_entries := relevant_of s.period session_block
  if relevant_entries.isEmpty then s
  else
    let acc := relevant_entries.foldl entryStep (0, {}, s.models_used, s.per_model_costs)
    let entry_timestamps := relevant_entries.map (fun entry => entry.timestamp)
    { s with
      session_blocks := s.session_blocks ++ [session_block],
      total_cost := s.total_cost + acc.1,
      token_counts :=
        { input_tokens := s.token_counts.input_tokens + acc.2.1.input_tokens,
          output_tokens := s.token_counts.output_tokens + acc.2.1.output_tokens,
          cache_creation_tokens :=
            s.token_counts.cache_creation_tokens + acc.2.1.cache_creation_tokens,
          cache_read_tokens :=
            s.token_counts.cache_read_tokens + acc.2.1.cache_read_tokens },
      entries_count := s.entries_count + relevant_entries.length,
      models_used := acc.2.2.1,
      per_model_costs := acc.2.2.2,
      first_usage :=
        match foldMin entry_timestamps with
        | none => s.first_usage
        | some earliest =>
          match s.first_usage with
          | none => some earliest
          | some f => if earliest < f then some earliest else some f,
      last_usage :=
        match foldMax entry_timestamps with
        | none => s.last_usage
        | some latest =>
          match s.last_usage with
          | none => some latest
          | some l => if l < latest then some latest else some l }

/-! ## `BillingPeriodCalculator` (`claude_monitor.core.billing_periods`)

The configuration is immutable for the calculator's lifetime.  The
timezone member is not modelled: all instants are already expressed in the
configured fixed-offset timezone (see the header), under which
`_ensure_timezone` is the identity.  The wall-clock reading
`datetime.now(...)` used for the `is_current` flag is passed explicitly as
a `now` argument. -/

structure BillingPeriodCalculator where
  period_type : BillingPeriodType := .daily
  custom_start_date : Option Int := none
  reset_day : Option Int := none

namespace BillingPeriodCalculator

/-- `_calculate_daily_boundaries`.  `none` models the `ValueError` raised
by `start_of_day.replace(hour=reset_hour)` when `reset_hour` is not a
valid hour (the guard `reset_hour > 0` already excludes non-positive
values, so only `reset_hour > 23` can raise). -/
def calculate_daily_boundaries (c : BillingPeriodCalculator)
    (reference_time : Int) : Option (Int × Int) :=
  let reset_hour := c.reset_day.getD 0
  let start_of_day := dayStart reference_time
  if 0 < reset_hour then
    if 23 < reset_hour then none
    else
      let reset_today := start_of_day + reset_hour * microsPerHour
      let start_time :=
        if reference_time < reset_today then reset_today - microsPerDay
        else reset_today
      some (start_time, start_time + microsPerDay)
  else
    some (start_of_day, start_of_day + microsPerDay)

/-- `_calculate_weekly_boundaries` (never raises: Python `%` on a positive
modulus is non-negative, and `replace` is called with in-range fields). -/
def calculate_weekly_boundaries (c : BillingPeriodCalculator)
    (reference_time : Int) : Int × Int :=
  let reset_weekday := c.reset_day.getD 0
  let days_since_reset := (weekdayOf reference_time - reset_weekday).emod 7
  let start_of_week := reference_time - days_since_reset * microsPerDay
  let start_time := dayStart start_of_week
  (start_time, start_time + 7 * microsPerDay)

/-- `_calculate_monthly_boundaries`.  `none` models the `ValueError`
raised by `reference_time.replace(day=...)` when the requested day is
below 1 (a non-positive `reset_day`); the day never exceeds the month's
length because it is clamped by `min` first. -/
def calculate_monthly_boundaries (c : BillingPeriodCalculator)
    (reference_time : Int) : Option (Int × Int) :=
  let reset_day := c.reset_day.getD 1
  let ymd := civilOf reference_time
  let max_day := daysInMonth ymd.1 ymd.2.1
  let actual_reset_day := min reset_day max_day
  let startFields : Option (Int × Int × Int) :=
    if ymd.2.2 < actual_reset_day then
      let prev_year := if ymd.2.1 = 1 then ymd.1 - 1 else ymd.1
      let prev_month := if ymd.2.1 = 1 then 12 else ymd.2.1 - 1
      let prev_reset_day := min reset_day (daysInMonth prev_year prev_month)
      if prev_reset_day < 1 then none
      else some (prev_year, prev_month, prev_reset_day)
    else
      if actual_reset_day < 1 then none
      else some (ymd.1, ymd.2.1, actual_reset_day)
  match startFields with
  | none => none
  | some s =>
    let next_year := if s.2.1 = 12 then s.1 + 1 else s.1
    let next_month := if s.2.1 = 12 then 1 else s.2.1 + 1
    let next_max_day := daysInMonth next_year next_month
    let next_reset_day := min (c.reset_day.getD 1) next_max_day
    some (mkMicros s.1 s.2.1 s.2.2, mkMicros next_year next_month next_reset_day)

/-- `_calculate_custom_boundaries`.  `periods_elapsed` is computed by
Python's `int(...)` applied to a float quotient, i.e. truncation toward
zero; modelled exactly by `Int.div` on microseconds (`Int.div` is
T-division). -/
def calculate_custom_boundaries (c : BillingPeriodCalculator)
    (reference_time : Int) : Option (Int × Int) :=
  match c.custom_start_date with
  | none => c.calculate_daily_boundaries reference_time
  | some custom_start =>
    let period_duration := 30 * microsPerDay
    let time_since_start := reference_time - custom_start
    let periods_elapsed := Int.tdiv time_since_start period_duration
    let start_time := custom_start + period_duration * periods_elapsed
    some (start_time, start_time + period_duration)

/-- `_calculate_period_boundaries`: dispatch on the period type (the
`else: raise ValueError` arm is unreachable, the enum being closed). -/
def calculate_period_boundaries (c : BillingPeriodCalculator)
    (reference_time : Int) : Option (Int × Int) :=
  match c.period_type with
  | .daily => c.calculate_daily_boundaries reference_time
  | .weekly => some (c.calculate_weekly_boundaries reference_time)
  | .monthly => c.calculate_monthly_boundaries reference_time
  | .custom => c.calculate_custom_boundaries reference_time

/-- `get_period_for_timestamp`: the billing period whose boundaries are
computed from `timestamp`, with `is_current` read against the wall clock
`now`. -/
def get_period_for_timestamp (c : BillingPeriodCalculator) (now timestamp : Int) :
    Option BillingPeriod :=
  match c.calculate_period_boundaries timestamp with
  | none => none
  | some b =>
    some { period_type := c.period_type,
           start_time := b.1,
           end_time := b.2,
           is_current := decide (b.1 ≤ now ∧ now < b.2) }

/-- `get_recent_periods`: repeatedly resolve the period of the running
reference instant, then step the reference to `start_time - 1 second`;
most recent first. -/
def get_recent_periods (c : BillingPeriodCalculator) (now : Int) :
    Nat → Int → Option (List BillingPeriod)
  | 0, _ => some []
  | count + 1, current_ref =>
    match c.get_period_for_timestamp now current_ref with
    | none => none
    | some period =>
      match c.get_recent_periods now count (period.start_time - microsPerSec) with
      | none => none
      | some rest => some (period :: rest)

end BillingPeriodCalculator

/-- `create_period_summary`: fold the session blocks into a fresh summary
for `period` (the calculator's configuration is not consulted). -/
def create_period_summary (period : BillingPeriod)
    (session_blocks : List SessionBlock) : BillingPeriodSummary :=
  session_blocks.foldl BillingPeriodSummary.add_session_block { period := period }

/-! ## Specification-side definitions

These formalize phrases of the specification so that the theorems can
compare the embedded code against them. -/

/-- All entries, across the given blocks in order, whose timestamps the
period contains. -/
def in_period_entries (p : BillingPeriod) (bs : List SessionBlock) : List UsageEntry :=
  (bs.map (relevant_of p)).flatten

/-- From the spec: "each distinct non-empty model name exactly once in
first-seen order". -/
def models_first_seen (l : List String) : List String :=
  l.foldl (fun acc m => if m ≠ "" ∧ m ∉ acc then acc ++ [m] else acc) []

/-- From the spec (`_calculate_custom_boundaries` as specified):
`periods_elapsed = floor((reference − anchor) / 30 days)` with the
mathematical floor, `start = anchor + periods_elapsed × 30 days`,
`end = start + 30 days`. -/
def custom_boundaries_floor_spec (anchor reference_time : Int) : Int × Int :=
  let period_duration := 30 * microsPerDay
  let periods_elapsed := (reference_time - anchor).fdiv period_duration
  (anchor + period_duration * periods_elapsed,
   anchor + period_duration * periods_elapsed + period_duration)

/-- Running min-update as performed by `add_session_block` on
`first_usage` (stored value first, candidate second). -/
def optMinPy (stored cand : Option Int) : Option Int :=
  match cand with
  | none => stored
  | some e =>
    match stored with
    | none => some e
    | some f => if e < f then some e else some f

/-- Running max-update as performed by `add_session_block` on
`last_usage`. -/
def optMaxPy (stored cand : Option Int) : Option Int :=
  match cand with
  | none => stored
  | some e =>
    match stored with
    | none => some e
    | some f => if f < e then some e else some f

/-! ## Aggregation lemmas -/

lemma optMinPy_none_right (x : Option Int) : optMinPy x none = x := rfl

lemma optMinPy_none_left (y : Option Int) : optMinPy none y = y := by
  cases y <;> rfl

lemma optMaxPy_none_right (x : Option Int) : optMaxPy x none = x := rfl

lemma optMaxPy_none_left (y : Option Int) : optMaxPy none y = y := by
  cases y <;> rfl

lemma optMinPy_some_some (a b : Int) :
    optMinPy (some a) (some b) = some (min a b) := by
  rcases le_or_lt a b with h | h
  · simp [optMinPy, not_lt.mpr h, min_eq_left h]
  · simp [optMinPy, h, min_eq_right (le_of_lt h)]

lemma optMaxPy_some_some (a b : Int) :
    optMaxPy (some a) (some b) = some (max a b) := by
  rcases le_or_lt b a with h | h
  · simp [optMaxPy, not_lt.mpr h, max_eq_left h]
  · simp [optMaxPy, h, max_eq_right (le_of_lt h)]

lemma optMinPy_assoc (x y z : Option Int) :
    optMinPy (optMinPy x y) z = optMinPy x (optMinPy y z) := by
  cases x <;> cases y <;> cases z <;>
    simp [optMinPy_none_left, optMinPy_none_right, optMinPy_some_some, min_assoc]

lemma optMaxPy_assoc (x y z : Option Int) :
    optMaxPy (optMaxPy x y) z = optMaxPy x (optMaxPy y z) := by
  cases x <;> cases y <;> cases z <;>
    simp [optMaxPy_none_left, optMaxPy_none_right, optMaxPy_some_some, max_assoc]

lemma minStep_eq (acc : Option Int) (t : Int) :
    minStep acc t = optMinPy acc (some t) := by
  cases acc with
  | none => rfl
  | some a => rw [optMinPy_some_some]; rfl

lemma maxStep_eq (acc : Option Int) (t : Int) :
    maxStep acc t = optMaxPy acc (some t) := by
  cases acc with
  | none => rfl
  | some a => rw [optMaxPy_some_some]; rfl

lemma foldl_minStep_eq (l : List Int) (acc : Option Int) :
    l.foldl minStep acc = optMinPy acc (foldMin l) := by
  induction l generalizing acc with
  | nil => simp [foldMin, optMinPy_none_right]
  | cons t l ih =>
    have h2 : foldMin (t :: l) = optMinPy (some t) (foldMin l) := by
      show (t :: l).foldl minStep none = _
      rw [List.foldl_cons, ih]; rfl
    rw [List.foldl_cons, ih, h2, minStep_eq, optMinPy_assoc]

lemma foldl_maxStep_eq (l : List Int) (acc : Option Int) :
    l.foldl maxStep acc = optMaxPy acc (foldMax l) := by
  induction l generalizing acc with
  | nil => simp [foldMax, optMaxPy_none_right]
  | cons t l ih =>
    have h2 : foldMax (t :: l) = optMaxPy (some t) (foldMax l) := by
      show (t :: l).foldl maxStep none = _
      rw [List.foldl_cons, ih]; rfl
    rw [List.foldl_cons, ih, h2, maxStep_eq, optMaxPy_assoc]

lemma foldMin_append (a b : List Int) :
    foldMin (a ++ b) = optMinPy (foldMin a) (foldMin b) := by
  simp only [foldMin, List.foldl_append]
  exact foldl_minStep_eq b _

lemma foldMax_append (a b : List Int) :
    foldMax (a ++ b) = optMaxPy (foldMax a) (foldMax b) := by
  simp only [foldMax, List.foldl_append]
  exact foldl_maxStep_eq b _

lemma foldl_entryStep_spec (l : List UsageEntry) (pc : ℚ) (pt : TokenCounts)
    (mu : List String) (pmc : List (String × ℚ)) :
    l.foldl entryStep (pc, pt, mu, pmc) =
      (pc + (l.map (fun e => e.cost_usd)).sum,
       { input_tokens := pt.input_tokens + (l.map (fun e => e.input_tokens)).sum,
         output_tokens := pt.output_tokens + (l.map (fun e => e.output_tokens)).sum,
         cache_creation_tokens :=
           pt.cache_creation_tokens + (l.map (fun e => e.cache_creation_tokens)).sum,
         cache_read_tokens :=
           pt.cache_read_tokens + (l.map (fun e => e.cache_read_tokens)).sum },
       l.foldl modelsStep mu,
       l.foldl pmcStep pmc) := by
  induction l generalizing pc pt mu pmc with
  | nil => cases pt; simp
  | cons e l ih =>
    simp only [List.foldl_cons, List.map_cons, List.sum_cons]
    rw [show entryStep (pc, pt, mu, pmc) e =
      (pc + e.cost_usd,
       { input_tokens := pt.input_tokens + e.input_tokens,
         output_tokens := pt.output_tokens + e.output_tokens,
         cache_creation_tokens := pt.cache_creation_tokens + e.cache_creation_tokens,
         cache_read_tokens := pt.cache_read_tokens + e.cache_read_tokens },
       modelsStep mu e, pmcStep pmc e) from rfl, ih]
    simp only [Prod.mk.injEq, TokenCounts.mk.injEq, and_true, true_and]
    exact ⟨by ring, by ring, by ring, by ring, by ring⟩

lemma add_session_block_spec (s : BillingPeriodSummary) (b : SessionBlock) :
    s.add_session_block b =
      { period := s.period,
        total_cost := s.total_cost + ((relevant_of s.period b).map (fun e => e.cost_usd)).sum,
        total_tokens := s.total_tokens,
        token_counts :=
          { input_tokens := s.token_counts.input_tokens +
              ((relevant_of s.period b).map (fun e => e.input_tokens)).sum,
            output_tokens := s.token_counts.output_tokens +
              ((relevant_of s.period b).map (fun e => e.output_tokens)).sum,
            cache_creation_tokens := s.token_counts.cache_creation_tokens +
              ((relevant_of s.period b).map (fun e => e.cache_creation_tokens)).sum,
            cache_read_tokens := s.token_counts.cache_read_tokens +
              ((relevant_of s.period b).map (fun e => e.cache_read_tokens)).sum },
        session_blocks := s.session_blocks ++
          (if (relevant_of s.period b).isEmpty then [] else [b]),
        entries_count := s.entries_count + (relevant_of s.period b).length,
        models_used := (relevant_of s.period b).foldl modelsStep s.models_used,
        per_model_costs := (relevant_of s.period b).foldl pmcStep s.per_model_costs,
        first_usage :=
          optMinPy s.first_usage (foldMin ((relevant_of s.period b).map (fun e => e.timestamp))),
        last_usage :=
          optMaxPy s.last_usage (foldMax ((relevant_of s.period b).map (fun e => e.timestamp))) } := by
  show (let relevant_entries := relevant_of s.period b
    if relevant_entries.isEmpty then s
    else
      let acc := relevant_entries.foldl entryStep (0, {}, s.models_used, s.per_model_costs)
      let entry_timestamps := relevant_entries.map (fun entry => entry.timestamp)
      { s with
        session_blocks := s.session_blocks ++ [b],
        total_cost := s.total_cost + acc.1,
        token_counts :=
          { input_tokens := s.token_counts.input_tokens + acc.2.1.input_tokens,
            output_tokens := s.token_counts.output_tokens + acc.2.1.output_tokens,
            cache_creation_tokens :=
              s.token_counts.cache_creation_tokens + acc.2.1.cache_creation_tokens,
            cache_read_tokens :=
              s.token_counts.cache_read_tokens + acc.2.1.cache_read_tokens },
        entries_count := s.entries_count + relevant_entries.length,
        models_used := acc.2.2.1,
        per_model_costs := acc.2.2.2,
        first_usage :=
          match foldMin entry_timestamps with
          | none => s.first_usage
          | some earliest =>
            match s.first_usage with
            | none => some earliest
            | some f => if earliest < f then some earliest else some f,
        last_usage :=
          match foldMax entry_timestamps with
          | none => s.last_usage
          | some latest =>
            match s.last_usage with
            | none => some latest
            | some l => if l < latest then some latest else some l }) = _
  simp only []
  by_cases h : (relevant_of s.period b).isEmpty
  · have hrel : relevant_of s.period b = [] := List.isEmpty_iff.mp h
    rw [if_pos h]
    obtain ⟨per, tc, tt, tok, sb, ec, mu, pmc, fu, lu⟩ := s
    obtain ⟨ta, tb, tcc, tcr⟩ := tok
    simp_all [foldMin, foldMax, optMinPy_none_right, optMaxPy_none_right]
  · rw [if_neg h, foldl_entryStep_spec]
    have hmin : ∀ ts : List Int, (match foldMin ts with
        | none => s.first_usage
        | some earliest =>
          match s.first_usage with
          | none => some earliest
          | some f => if earliest < f then some earliest else some f) =
        optMinPy s.first_usage (foldMin ts) := by
      intro ts
      cases foldMin ts <;> cases s.first_usage <;> simp [optMinPy]
    have hmax : ∀ ts : List Int, (match foldMax ts with
        | none => s.last_usage
        | some latest =>
          match s.last_usage with
          | none => some latest
          | some l => if l < latest then some latest else some l) =
        optMaxPy s.last_usage (foldMax ts) := by
      intro ts
      cases foldMax ts <;> cases s.last_usage <;> simp [optMaxPy]
    rw [hmin, hmax, if_neg h]
    simp

lemma in_period_entries_nil (p : BillingPeriod) : in_period_entries p [] = [] := rfl

lemma in_period_entries_cons (p : BillingPeriod) (b : SessionBlock) (bs : List SessionBlock) :
    in_period_entries p (b :: bs) = relevant_of p b ++ in_period_entries p bs := by
  simp [in_period_entries]

/-- The fold in `create_period_summary`, with every field of the result
expressed through the in-period entries of the processed blocks. -/
lemma foldl_add_session_block_spec (bs : List SessionBlock) (s : BillingPeriodSummary) :
    bs.foldl BillingPeriodSummary.add_session_block s =
      { period := s.period,
        total_cost := s.total_cost +
          ((in_period_entries s.period bs).map (fun e => e.cost_usd)).sum,
        total_tokens := s.total_tokens,
        token_counts :=
          { input_tokens := s.token_counts.input_tokens +
              ((in_period_entries s.period bs).map (fun e => e.input_tokens)).sum,
            output_tokens := s.token_counts.output_tokens +
              ((in_period_entries s.period bs).map (fun e => e.output_tokens)).sum,
            cache_creation_tokens := s.token_counts.cache_creation_tokens +
              ((in_period_entries s.period bs).map (fun e => e.cache_creation_tokens)).sum,
            cache_read_tokens := s.token_counts.cache_read_tokens +
              ((in_period_entries s.period bs).map (fun e => e.cache_read_tokens)).sum },
        session_blocks := s.session_blocks ++
          bs.filter (fun b => !(relevant_of s.period b).isEmpty),
        entries_count := s.entries_count + (in_period_entries s.period bs).length,
        models_used := (in_period_entries s.period bs).foldl modelsStep s.models_used,
        per_model_costs := (in_period_entries s.period bs).foldl pmcStep s.per_model_costs,
        first_usage := optMinPy s.first_usage
          (foldMin ((in_period_entries s.period bs).map (fun e => e.timestamp))),
        last_usage := optMaxPy s.last_usage
          (foldMax ((in_period_entries s.period bs).map (fun e => e.timestamp))) } := by
  induction bs generalizing s with
  | nil =>
    obtain ⟨per, tc, tt, tok, sb, ec, mu, pmc, fu, lu⟩ := s
    obtain ⟨ta, tb, tcc, tcr⟩ := tok
    simp [in_period_entries_nil, foldMin, foldMax, optMinPy_none_right, optMaxPy_none_right]
  | cons b bs ih =>
    rw [List.foldl_cons, ih, add_session_block_spec]
    simp only [in_period_entries_cons, List.map_append, List.sum_append, List.length_append,
      List.foldl_append, foldMin_append, foldMax_append, List.filter_cons]
    congr 1
    · ring
    · congr 1 <;> ring
    · by_cases hb : (relevant_of s.period b).isEmpty <;>
        simp [hb, List.append_assoc]
    · push_cast; ring
    · rw [optMinPy_assoc]
    · rw [optMaxPy_assoc]

/-- The `models_used` update keyed by the model name alone. -/
def modelNameStep (acc : List String) (m : String) : List String :=
  if m ≠ "" ∧ m ∉ acc then acc ++ [m] else acc

lemma foldl_modelsStep_map (l : List UsageEntry) (acc : List String) :
    l.foldl modelsStep acc = (l.map (fun e => e.model)).foldl modelNameStep acc := by
  rw [List.foldl_map]
  rfl

lemma models_first_seen_def (l : List String) :
    models_first_seen l = l.foldl modelNameStep [] := rfl

lemma mem_foldl_modelNameStep (l : List String) (acc : List String) (x : String) :
    x ∈ l.foldl modelNameStep acc ↔ x ∈ acc ∨ (x ∈ l ∧ x ≠ "") := by
  induction l generalizing acc with
  | nil => simp
  | cons m l ih =>
    rw [List.foldl_cons, ih]
    by_cases hm : m ≠ "" ∧ m ∉ acc
    · have : x ∈ modelNameStep acc m ↔ x ∈ acc ∨ x = m := by
        simp [modelNameStep, hm]
      rw [this]
      constructor
      · rintro ((h | rfl) | ⟨h, hne⟩)
        · exact Or.inl h
        · exact Or.inr ⟨List.mem_cons_self .., hm.1⟩
        · exact Or.inr ⟨List.mem_cons_of_mem _ h, hne⟩
      · rintro (h | ⟨h, hne⟩)
        · exact Or.inl (Or.inl h)
        · rcases List.mem_cons.mp h with rfl | h
          · exact Or.inl (Or.inr rfl)
          · exact Or.inr ⟨h, hne⟩
    · have : modelNameStep acc m = acc := by simp [modelNameStep, hm]
      rw [this]
      rcases not_and_or.mp hm with hm1 | hm2
      · have hm1 : m = "" := not_not.mp hm1
        subst hm1
        constructor
        · rintro (h | ⟨h, hne⟩)
          · exact Or.inl h
          · exact Or.inr ⟨List.mem_cons_of_mem _ h, hne⟩
        · rintro (h | ⟨h, hne⟩)
          · exact Or.inl h
          · rcases List.mem_cons.mp h with rfl | h
            · exact absurd rfl hne
            · exact Or.inr ⟨h, hne⟩
      · have hm2 : m ∈ acc := not_not.mp hm2
        constructor
        · rintro (h | ⟨h, hne⟩)
          · exact Or.inl h
          · exact Or.inr ⟨List.mem_cons_of_mem _ h, hne⟩
        · rintro (h | ⟨h, hne⟩)
          · exact Or.inl h
          · rcases List.mem_cons.mp h with rfl | h
            · exact Or.inl hm2
            · exact Or.inr ⟨h, hne⟩

lemma nodup_foldl_modelNameStep (l : List String) (acc : List String)
    (h : acc.Nodup) : (l.foldl modelNameStep acc).Nodup := by
  induction l generalizing acc with
  | nil => exact h
  | cons m l ih =>
    rw [List.foldl_cons]
    apply ih
    by_cases hm : m ≠ "" ∧ m ∉ acc
    · rw [show modelNameStep acc m = acc ++ [m] from by simp [modelNameStep, hm]]
      rw [List.nodup_append_comm]
      simpa [List.nodup_cons] using ⟨hm.2, h⟩
    · simpa [modelNameStep, hm] using h

/-! ## Concrete instances used by the example-based claims -/

/-- The daily period `[2024-01-15T00:00Z, 2024-01-16T00:00Z)`. -/
def examplePeriod : BillingPeriod :=
  { period_type := .daily, start_time := mkMicros 2024 1 15,
    end_time := mkMicros 2024 1 16, is_current := true }

/-- In-period record: cost 0.05, tokens (100, 50, 0, 0). -/
def exampleEntry1 : UsageEntry :=
  { timestamp := mkMicrosT 2024 1 15 10 0 0, input_tokens := 100, output_tokens := 50,
    cost_usd := 5 / 100, model := "claude-3-sonnet" }

/-- In-period record: cost 0.10, tokens (200, 100, 0, 0). -/
def exampleEntry2 : UsageEntry :=
  { timestamp := mkMicrosT 2024 1 15 12 0 0, input_tokens := 200, output_tokens := 100,
    cost_usd := 10 / 100, model := "claude-3-sonnet" }

/-- The session block holding both example records. -/
def exampleBlock : SessionBlock :=
  { id := "test-session", start_time := mkMicrosT 2024 1 15 10 0 0,
    end_time := mkMicrosT 2024 1 15 15 0 0, entries := [exampleEntry1, exampleEntry2],
    token_counts := { input_tokens := 300, output_tokens := 150 }, cost_usd := 15 / 100 }

lemma example_relevant :
    relevant_of examplePeriod exampleBlock = [exampleEntry1, exampleEntry2] := by
  have h1 : decide (examplePeriod.contains_timestamp exampleEntry1.timestamp) = true := by
    decide
  have h2 : decide (examplePeriod.contains_timestamp exampleEntry2.timestamp) = true := by
    decide
  simp [relevant_of, exampleBlock, List.filter_cons, h1, h2]

lemma example_in_period :
    in_period_entries examplePeriod [exampleBlock] = [exampleEntry1, exampleEntry2] := by
  simp [in_period_entries, example_relevant]

/-- C7: `create_period_summary` folds exactly the in-period entries:
`total_cost` is the sum of their costs, each `token_counts` field the sum of
the corresponding entry fields, `entries_count` their number, and
`models_used` the distinct non-empty model names in first-seen order (each
exactly once); in particular the two-record example yields total cost 0.15,
450 total tokens, 2 entries, and the one model listed exactly once. -/
theorem create_period_summary_aggregates :
    (∀ (p : BillingPeriod) (bs : List SessionBlock),
      (create_period_summary p bs).total_cost =
        ((in_period_entries p bs).map (fun e => e.cost_usd)).sum ∧
      (create_period_summary p bs).token_counts =
        { input_tokens := ((in_period_entries p bs).map (fun e => e.input_tokens)).sum,
          output_tokens := ((in_period_entries p bs).map (fun e => e.output_tokens)).sum,
          cache_creation_tokens :=
            ((in_period_entries p bs).map (fun e => e.cache_creation_tokens)).sum,
          cache_read_tokens :=
            ((in_period_entries p bs).map (fun e => e.cache_read_tokens)).sum } ∧
      (create_period_summary p bs).entries_count = (in_period_entries p bs).length ∧
      (create_period_summary p bs).models_used =
        models_first_seen ((in_period_entries p bs).map (fun e => e.model)) ∧
      (create_period_summary p bs).models_used.Nodup ∧
      (∀ x, x ∈ (create_period_summary p bs).models_used ↔
        x ∈ (in_period_entries p bs).map (fun e => e.model) ∧ x ≠ "")) ∧
    ((create_period_summary examplePeriod [exampleBlock]).total_cost = 15 / 100 ∧
     (create_period_summary examplePeriod [exampleBlock]).token_counts.total_tokens = 450 ∧
     (create_period_summary examplePeriod [exampleBlock]).entries_count = 2 ∧
     (create_period_summary examplePeriod [exampleBlock]).models_used = ["claude-3-sonnet"]) := by
  have key : ∀ (p : BillingPeriod) (bs : List SessionBlock),
      (create_period_summary p bs).total_cost =
        ((in_period_entries p bs).map (fun e => e.cost_usd)).sum ∧
      (create_period_summary p bs).token_counts =
        { input_tokens := ((in_period_entries p bs).map (fun e => e.input_tokens)).sum,
          output_tokens := ((in_period_entries p bs).map (fun e => e.output_tokens)).sum,
          cache_creation_tokens :=
            ((in_period_entries p bs).map (fun e => e.cache_creation_tokens)).sum,
          cache_read_tokens :=
            ((in_period_entries p bs).map (fun e => e.cache_read_tokens)).sum } ∧
      (create_period_summary p bs).entries_count = (in_period_entries p bs).length ∧
      (create_period_summary p bs).models_used =
        models_first_seen ((in_period_entries p bs).map (fun e => e.model)) := by
    intro p bs
    have hc : create_period_summary p bs = _ :=
      foldl_add_session_block_spec bs { period := p }
    rw [hc]
    refine ⟨by simp, by simp, by simp, ?_⟩
    show (in_period_entries p bs).foldl modelsStep [] = _
    rw [foldl_modelsStep_map, models_first_seen_def]
  constructor
  · intro p bs
    obtain ⟨h1, h2, h3, h4⟩ := key p bs
    refine ⟨h1, h2, h3, h4, ?_, ?_⟩
    · rw [h4, models_first_seen_def]
      exact nodup_foldl_modelNameStep _ _ List.nodup_nil
    · intro x
      rw [h4, models_first_seen_def, mem_foldl_modelNameStep]
      simp
  · obtain ⟨h1, h2, h3, h4⟩ := key examplePeriod [exampleBlock]
    rw [example_in_period] at h1 h2 h3 h4
    refine ⟨?_, ?_, ?_, ?_⟩
    · rw [h1]
      simp [exampleEntry1, exampleEntry2]
      norm_num
    · rw [h2]
      simp [TokenCounts.total_tokens, exampleEntry1, exampleEntry2]
    · rw [h3]
      simp
    · rw [h4]
      simp [models_first_seen, modelNameStep, exampleEntry1, exampleEntry2]

/-- C8: a session block none of whose entries fall inside the summary's
period leaves the summary completely unchanged. -/
theorem add_session_block_outside_period_unchanged (s : BillingPeriodSummary)
    (b : SessionBlock)
    (h : ∀ e ∈ b.entries, ¬ s.period.contains_timestamp e.timestamp) :
    s.add_session_block b = s := by
  have hrel : relevant_of s.period b = [] := by
    simp only [relevant_of, List.filter_eq_nil_iff]
    intro e he
    simpa using h e he
  rw [add_session_block_spec, hrel]
  obtain ⟨per, tc, tt, tok, sb, ec, mu, pmc, fu, lu⟩ := s
  obtain ⟨ta, tb, tcc, tcr⟩ := tok
  simp [foldMin, foldMax, optMinPy_none_right, optMaxPy_none_right]

/-- Witness for C8: a block whose single entry lies the day before the
period is ignored. -/
theorem add_session_block_outside_period_unchanged_witness :
    BillingPeriodSummary.add_session_block { period := examplePeriod }
      { id := "other", start_time := mkMicrosT 2024 1 14 10 0 0,
        end_time := mkMicrosT 2024 1 14 15 0 0,
        entries := [{ timestamp := mkMicrosT 2024 1 14 10 0 0, input_tokens := 1,
                      output_tokens := 1 }] } =
      { period := examplePeriod } :=
  add_session_block_outside_period_unchanged _ _ (by decide)

/-- Block "a": one in-period entry. -/
def blockA : SessionBlock :=
  { id := "a", start_time := mkMicrosT 2024 1 15 10 0 0,
    end_time := mkMicrosT 2024 1 15 15 0 0, entries := [exampleEntry1] }

/-- Block "b": identical to `blockA` (same entries collection) except for
its `id` field. -/
def blockB : SessionBlock := { blockA with id := "b" }

/-- C9 counterexample: two blocks with the very same entries collection
(hence the same in-period entry values) produce different summaries,
because `add_session_block` appends the passed block itself to
`session_blocks`; so the summary's observable state is not a function of
the in-period entry values alone, and it does retain the passed
`SessionBlock` objects. -/
theorem summary_not_function_of_in_period_entries :
    blockA.entries = blockB.entries ∧
    in_period_entries examplePeriod [blockA] = in_period_entries examplePeriod [blockB] ∧
    create_period_summary examplePeriod [blockA] ≠ create_period_summary examplePeriod [blockB] := by
  refine ⟨rfl, rfl, ?_⟩
  intro heq
  have hA : (create_period_summary examplePeriod [blockA]).session_blocks = [blockA] := by
    rw [show create_period_summary examplePeriod [blockA] = _ from
      foldl_add_session_block_spec [blockA] { period := examplePeriod }]
    have hpred : (!(relevant_of examplePeriod blockA).isEmpty) = true := by decide
    simp [List.filter_cons, hpred]
  have hB : (create_period_summary examplePeriod [blockB]).session_blocks = [blockB] := by
    rw [show create_period_summary examplePeriod [blockB] = _ from
      foldl_add_session_block_spec [blockB] { period := examplePeriod }]
    have hpred : (!(relevant_of examplePeriod blockB).isEmpty) = true := by decide
    simp [List.filter_cons, hpred]
  have h2 := congrArg (fun s => s.session_blocks.map (fun b => b.id)) heq
  simp only [hA, hB, List.map_cons, List.map_nil] at h2
  have : blockA.id = blockB.id := by simpa using h2
  simp [blockA, blockB] at this

/-- C9 amended: every aggregate field of the summary depends only on the
in-period entries, but the summary retains each contributing session block
whole: `session_blocks` is exactly the list of blocks that have at least
one in-period entry. -/
theorem summary_aggregates_and_retained_blocks :
    (∀ (p : BillingPeriod) (bs : List SessionBlock),
      (create_period_summary p bs).session_blocks =
        bs.filter (fun b => !(relevant_of p b).isEmpty)) ∧
    (∀ (p : BillingPeriod) (bs bs' : List SessionBlock),
      in_period_entries p bs = in_period_entries p bs' →
      (create_period_summary p bs).total_cost = (create_period_summary p bs').total_cost ∧
      (create_period_summary p bs).token_counts = (create_period_summary p bs').token_counts ∧
      (create_period_summary p bs).entries_count = (create_period_summary p bs').entries_count ∧
      (create_period_summary p bs).models_used = (create_period_summary p bs').models_used ∧
      (create_period_summary p bs).per_model_costs =
        (create_period_summary p bs').per_model_costs ∧
      (create_period_summary p bs).first_usage = (create_period_summary p bs').first_usage ∧
      (create_period_summary p bs).last_usage = (create_period_summary p bs').last_usage) := by
  constructor
  · intro p bs
    rw [show create_period_summary p bs = _ from
      foldl_add_session_block_spec bs { period := p }]
    simp
  · intro p bs bs' h
    rw [show create_period_summary p bs = _ from
      foldl_add_session_block_spec bs { period := p },
      show create_period_summary p bs' = _ from
      foldl_add_session_block_spec bs' { period := p }]
    simp only []
    rw [show in_period_entries ({ period := p } : BillingPeriodSummary).period bs =
      in_period_entries ({ period := p } : BillingPeriodSummary).period bs' from h]
    exact ⟨rfl, rfl, rfl, rfl, rfl, rfl, rfl⟩

/-- Witness for C9's amended theorem: applied to `[blockA]` and to a list
with a duplicate out-of-period-free block arrangement with equal in-period
entries. -/
theorem summary_aggregates_and_retained_blocks_witness :
    (create_period_summary examplePeriod [blockA]).session_blocks =
      [blockA].filter (fun b => !(relevant_of examplePeriod b).isEmpty) ∧
    (create_period_summary examplePeriod [blockA]).total_cost =
      (create_period_summary examplePeriod [blockB]).total_cost :=
  ⟨summary_aggregates_and_retained_blocks.1 examplePeriod [blockA],
   (summary_aggregates_and_retained_blocks.2 examplePeriod [blockA] [blockB] rfl).1⟩

/-! ## Claims about the boundary calculators -/

/-- C1: for a Custom calculator whose anchor (2024-01-10T00:00Z) lies after
the queried timestamp (2024-01-05T00:00Z), `get_period_for_timestamp`
returns the period `[2024-01-10, 2024-02-09)`, which does **not** contain
the timestamp: `int()` truncates the negative quotient toward zero instead
of flooring it, contradicting the function's stated contract of returning
the period containing the timestamp. -/
theorem get_period_for_timestamp_custom_anchor_after_not_contained :
    BillingPeriodCalculator.get_period_for_timestamp
      { period_type := .custom, custom_start_date := some (mkMicros 2024 1 10) }
      (mkMicros 2024 1 5) (mkMicros 2024 1 5) =
      some { period_type := .custom, start_time := mkMicros 2024 1 10,
             end_time := mkMicros 2024 2 9, is_current := false } ∧
    ¬ BillingPeriod.contains_timestamp
        { period_type := .custom, start_time := mkMicros 2024 1 10,
          end_time := mkMicros 2024 2 9, is_current := false }
        (mkMicros 2024 1 5) := by
  constructor
  · decide
  · decide

/-- C2 counterexample: with Monthly periods, `reset_day = 31` and
reference 2024-02-15, the computed period is **not**
`[2024-02-29, 2024-03-31)` as claimed. -/
theorem monthly_reset31_feb2024_claim_false :
    BillingPeriodCalculator.calculate_monthly_boundaries
      { period_type := .monthly, reset_day := some 31 }
      (mkMicrosT 2024 2 15 0 0 0) ≠
      some (mkMicros 2024 2 29, mkMicros 2024 3 31) := by decide

/-- C2 amended: with Monthly periods, `reset_day = 31` and reference
2024-02-15, the reference day (15) is below the clamped reset day (29), so
the start falls in the **previous** month at `min(31, 31) = 31`
(2024-01-31), and the end is the reset day clamped to leap-February,
2024-02-29: the period is `[2024-01-31T00:00Z, 2024-02-29T00:00Z)`. -/
theorem monthly_reset31_feb2024_boundaries :
    BillingPeriodCalculator.calculate_monthly_boundaries
      { period_type := .monthly, reset_day := some 31 }
      (mkMicrosT 2024 2 15 0 0 0) =
      some (mkMicros 2024 1 31, mkMicros 2024 2 29) := by decide

/-- C3: at anchor 2024-01-10T00:00Z and reference 2024-01-05T00:00Z (five
days before the anchor), the code computes `periods_elapsed = 0` by
truncation toward zero and returns `[2024-01-10, 2024-02-09)`, whereas the
floor formula of the claim gives `periods_elapsed = -1` and
`[2023-12-11, 2024-01-10)`; the two disagree. -/
theorem calculate_custom_boundaries_truncates_not_floors :
    BillingPeriodCalculator.calculate_custom_boundaries
      { period_type := .custom, custom_start_date := some (mkMicros 2024 1 10) }
      (mkMicros 2024 1 5) =
      some (mkMicros 2024 1 10, mkMicros 2024 2 9) ∧
    custom_boundaries_floor_spec (mkMicros 2024 1 10) (mkMicros 2024 1 5) =
      (mkMicros 2023 12 11, mkMicros 2024 1 10) ∧
    (mkMicros 2024 1 10 : Int) ≠ mkMicros 2023 12 11 := by
  refine ⟨by decide, by decide, by decide⟩

/-- C4: for a Custom calculator (anchor 2024-01-10T00:00Z) and reference
2024-01-20T14:30Z, `get_recent_periods(2)` returns the **same** period
`[2024-01-10, 2024-02-09)` twice: after stepping to `start - 1s` the
truncation-toward-zero of the now negative quotient lands back in the same
period, so the starts are not strictly decreasing and the second period's
end does not precede the first period's start. -/
theorem get_recent_periods_custom_repeats_period :
    BillingPeriodCalculator.get_recent_periods
      { period_type := .custom, custom_start_date := some (mkMicros 2024 1 10) }
      (mkMicrosT 2024 1 20 14 30 0) 2 (mkMicrosT 2024 1 20 14 30 0) =
      some [{ period_type := .custom, start_time := mkMicros 2024 1 10,
              end_time := mkMicros 2024 2 9, is_current := true },
            { period_type := .custom, start_time := mkMicros 2024 1 10,
              end_time := mkMicros 2024 2 9, is_current := true }] ∧
    ¬ ((mkMicros 2024 2 9 : Int) ≤ mkMicros 2024 1 10) := by
  refine ⟨by decide, by decide⟩

/-- C5 counterexample: a Custom calculator without an anchor date but with
`reset_day = 6` falls back to the daily rule **with** the reset offset
interpreted as an hour: reference 2024-01-15T04:30Z yields start
2024-01-14T06:00Z, not the claimed midnight of the reference date. -/
theorem custom_fallback_honours_reset_day :
    BillingPeriodCalculator.calculate_custom_boundaries
      { period_type := .custom, custom_start_date := none, reset_day := some 6 }
      (mkMicrosT 2024 1 15 4 30 0) =
      some (mkMicrosT 2024 1 14 6 0 0, mkMicrosT 2024 1 15 6 0 0) ∧
    mkMicrosT 2024 1 14 6 0 0 ≠ mkMicros 2024 1 15 := by
  refine ⟨by decide, by decide⟩

/-- C5 amended: with no anchor date, Custom boundary calculation falls
back to the **full** daily rule, `reset_day` included (interpreted as a
reset hour); the result is midnight-to-midnight of the reference date only
when `reset_day` is absent or non-positive. -/
theorem custom_no_anchor_falls_back_to_daily (ro : Option Int) (t : Int) :
    BillingPeriodCalculator.calculate_custom_boundaries
      { period_type := .custom, custom_start_date := none, reset_day := ro } t =
      BillingPeriodCalculator.calculate_daily_boundaries
        { period_type := .custom, custom_start_date := none, reset_day := ro } t ∧
    (ro.getD 0 ≤ 0 →
      BillingPeriodCalculator.calculate_custom_boundaries
        { period_type := .custom, custom_start_date := none, reset_day := ro } t =
      some (dayStart t, dayStart t + microsPerDay)) := by
  constructor
  · rfl
  · intro h
    show BillingPeriodCalculator.calculate_daily_boundaries _ t = _
    unfold BillingPeriodCalculator.calculate_daily_boundaries
    simp [not_lt.mpr h]

/-- Witness for C5's amended theorem at `reset_day = 0`,
reference 2024-01-15T04:30Z. -/
theorem custom_no_anchor_falls_back_to_daily_witness :
    BillingPeriodCalculator.calculate_custom_boundaries
      { period_type := .custom, custom_start_date := none, reset_day := some 0 }
      (mkMicrosT 2024 1 15 4 30 0) =
      BillingPeriodCalculator.calculate_daily_boundaries
        { period_type := .custom, custom_start_date := none, reset_day := some 0 }
        (mkMicrosT 2024 1 15 4 30 0) ∧
    BillingPeriodCalculator.calculate_custom_boundaries
      { period_type := .custom, custom_start_date := none, reset_day := some 0 }
      (mkMicrosT 2024 1 15 4 30 0) =
      some (dayStart (mkMicrosT 2024 1 15 4 30 0),
            dayStart (mkMicrosT 2024 1 15 4 30 0) + microsPerDay) :=
  ⟨(custom_no_anchor_falls_back_to_daily (some 0) (mkMicrosT 2024 1 15 4 30 0)).1,
   (custom_no_anchor_falls_back_to_daily (some 0) (mkMicrosT 2024 1 15 4 30 0)).2
     (by decide)⟩

/-- C6: for Daily periods with reset hour `H` in 1..23, the boundaries are
`reset_today = (reference date at H:00)`, `start = reset_today - 24h` when
the reference precedes `reset_today` and `start = reset_today` otherwise,
with `end = start + 24h`. -/
theorem daily_boundaries_reset_hour (H t : Int) (h1 : 1 ≤ H) (h2 : H ≤ 23) :
    BillingPeriodCalculator.calculate_daily_boundaries
      { period_type := .daily, custom_start_date := none, reset_day := some H } t =
      some (if t < dayStart t + H * microsPerHour
              then dayStart t + H * microsPerHour - microsPerDay
              else dayStart t + H * microsPerHour,
            (if t < dayStart t + H * microsPerHour
              then dayStart t + H * microsPerHour - microsPerDay
              else dayStart t + H * microsPerHour) + microsPerDay) := by
  unfold BillingPeriodCalculator.calculate_daily_boundaries
  simp [show (0 : Int) < H by omega, show ¬ (23 : Int) < H by omega]

/-- Witness for C6 at `H = 6`, reference 2024-01-15T04:30Z: since
04:30 < 06:00, the start is the previous day's reset 2024-01-14T06:00Z. -/
theorem daily_boundaries_reset_hour_witness :
    (1 : Int) ≤ 6 ∧ (6 : Int) ≤ 23 ∧
    BillingPeriodCalculator.calculate_daily_boundaries
      { period_type := .daily, custom_start_date := none, reset_day := some 6 }
      (mkMicrosT 2024 1 15 4 30 0) =
      some (mkMicrosT 2024 1 14 6 0 0, mkMicrosT 2024 1 15 6 0 0) :=
  ⟨by decide, by decide,
   (daily_boundaries_reset_hour 6 (mkMicrosT 2024 1 15 4 30 0)
     (by decide) (by decide)).trans (by decide)⟩

/-- C10 counterexample: `reset_day = -1` lies outside 0..23 but daily
boundary calculation does **not** raise: the guard `reset_hour > 0` routes
non-positive values to the midnight branch, so the period is the plain
midnight-to-midnight day. -/
theorem daily_negative_reset_day_does_not_raise :
    BillingPeriodCalculator.calculate_daily_boundaries
      { period_type := .daily, custom_start_date := none, reset_day := some (-1) }
      (mkMicrosT 2024 1 15 4 30 0) =
      some (mkMicros 2024 1 15, mkMicros 2024 1 16) ∧
    ¬ ((0 : Int) ≤ -1 ∧ (-1 : Int) ≤ 23) := by
  refine ⟨by decide, by decide⟩

/-- C10 amended: daily boundary calculation succeeds exactly when the
configured reset offset (defaulting to 0 when absent) is at most 23; in
particular any `reset_day ≥ 24` raises `ValueError` (modelled as `none`)
while `reset_day ≤ 0`, including negative values, never does. -/
theorem daily_boundaries_total_iff (ro : Option Int) (t : Int) :
    (BillingPeriodCalculator.calculate_daily_boundaries
      { period_type := .daily, custom_start_date := none, reset_day := ro } t).isSome ↔
    ro.getD 0 ≤ 23 := by
  unfold BillingPeriodCalculator.calculate_daily_boundaries
  rcases le_or_lt (ro.getD 0) 0 with h | h
  · simp [not_lt.mpr h]
    omega
  · rcases le_or_lt (ro.getD 0) 23 with h23 | h23
    · simp [h, not_lt.mpr h23, h23]
    · simp [h, h23]

/-- Witness for C10's amended theorem at `reset_day = 24`. -/
theorem daily_boundaries_total_iff_witness :
    ((BillingPeriodCalculator.calculate_daily_boundaries
      { period_type := .daily, custom_start_date := none, reset_day := some 24 }
      (mkMicrosT 2024 1 15 4 30 0)).isSome ↔ (24 : Int) ≤ 23) :=
  daily_boundaries_total_iff (some 24) (mkMicrosT 2024 1 15 4 30 0)

/-! ## Supporting lemmas: containment on the unaffected paths

These back the analysis of the custom-period defect: daily and weekly
boundaries always contain the reference instant, custom boundaries contain
it whenever the reference is at or after the anchor, and a reference less
than 30 days before the anchor is assigned the anchor's own period, which
does not contain it. -/

lemma dayStart_le (t : Int) : dayStart t ≤ t := by
  unfold dayStart dayIndex microsPerDay
  rw [Int.fdiv_eq_ediv _ (by norm_num)]
  omega

lemma lt_dayStart_add (t : Int) : t < dayStart t + microsPerDay := by
  unfold dayStart dayIndex microsPerDay
  rw [Int.fdiv_eq_ediv _ (by norm_num)]
  omega

lemma daily_boundaries_contain (c : BillingPeriodCalculator) (t s e : Int)
    (h : c.calculate_daily_boundaries t = some (s, e)) : s ≤ t ∧ t < e := by
  have hs := dayStart_le t
  have he := lt_dayStart_add t
  unfold BillingPeriodCalculator.calculate_daily_boundaries at h
  by_cases h0 : 0 < c.reset_day.getD 0
  · rw [if_pos h0] at h
    by_cases h23 : 23 < c.reset_day.getD 0
    · rw [if_pos h23] at h
      exact absurd h (by simp)
    · rw [if_neg h23] at h
      rcases Option.some.injEq .. ▸ h with heq
      obtain ⟨rfl, rfl⟩ := Prod.mk.injEq .. ▸ heq.symm
      unfold microsPerHour microsPerDay
      unfold microsPerHour microsPerDay at *
      split <;> rename_i hlt <;> constructor <;> omega
  · rw [if_neg h0] at h
    rcases Option.some.injEq .. ▸ h with heq
    obtain ⟨rfl, rfl⟩ := Prod.mk.injEq .. ▸ heq.symm
    exact ⟨hs, by unfold microsPerDay at *; omega⟩

lemma weekly_boundaries_contain (c : BillingPeriodCalculator) (t : Int) :
    (c.calculate_weekly_boundaries t).1 ≤ t ∧ t < (c.calculate_weekly_boundaries t).2 := by
  unfold BillingPeriodCalculator.calculate_weekly_boundaries
  set w := c.reset_day.getD 0 with hw
  have hd : 0 ≤ (weekdayOf t - w).emod 7 ∧ (weekdayOf t - w).emod 7 < 7 := by
    constructor
    · exact Int.emod_nonneg _ (by norm_num)
    · exact Int.emod_lt_of_pos _ (by norm_num)
  set δ := (weekdayOf t - w).emod 7 with hδ
  have hshift : (t - δ * microsPerDay).fdiv microsPerDay = t.fdiv microsPerDay - δ := by
    unfold microsPerDay
    rw [Int.fdiv_eq_ediv _ (by norm_num), Int.fdiv_eq_ediv _ (by norm_num)]
    omega
  have h1 : dayStart (t - δ * microsPerDay) = dayStart t - δ * microsPerDay := by
    unfold dayStart dayIndex
    rw [hshift]
    ring
  have hs := dayStart_le t
  have he := lt_dayStart_add t
  show dayStart (t - δ * microsPerDay) ≤ t ∧ t < dayStart (t - δ * microsPerDay) + 7 * microsPerDay
  rw [h1]
  unfold microsPerDay at *
  constructor <;> omega

lemma custom_boundaries_contain_of_anchor_le (c : BillingPeriodCalculator)
    (anchor t s e : Int) (ha : c.custom_start_date = some anchor) (hle : anchor ≤ t)
    (h : c.calculate_custom_boundaries t = some (s, e)) : s ≤ t ∧ t < e := by
  unfold BillingPeriodCalculator.calculate_custom_boundaries at h
  rw [ha] at h
  rcases Option.some.injEq .. ▸ h with heq
  obtain ⟨rfl, rfl⟩ := Prod.mk.injEq .. ▸ heq.symm
  have htd : Int.tdiv (t - anchor) (30 * microsPerDay) =
      (t - anchor) / (30 * microsPerDay) := by
    exact Int.tdiv_eq_ediv (by omega) (by unfold microsPerDay; norm_num)
  rw [htd]
  unfold microsPerDay
  unfold microsPerDay at htd
  constructor <;> omega

lemma custom_boundaries_just_before_anchor (c : BillingPeriodCalculator)
    (anchor t : Int) (ha : c.custom_start_date = some anchor)
    (h1 : anchor - 30 * microsPerDay < t) (h2 : t < anchor) :
    c.calculate_custom_boundaries t = some (anchor, anchor + 30 * microsPerDay) := by
  unfold BillingPeriodCalculator.calculate_custom_boundaries
  rw [ha]
  have hz : Int.tdiv (t - anchor) (30 * microsPerDay) = 0 := by
    have : Int.tdiv (t - anchor) (30 * microsPerDay) =
        -(Int.tdiv (anchor - t) (30 * microsPerDay)) := by
      rw [show t - anchor = -(anchor - t) by ring, Int.neg_tdiv]
    rw [this, Int.tdiv_eq_zero_of_lt (by omega) (by unfold microsPerDay at *; omega)]
    ring
  simp only [hz]
  norm_num
